import Mathlib

/-!
Shallow embedding of `src/main.py` of greenstick/incentive-logger.

The program is a single `__main__` script.  One invocation, after the weekend
check, loads `config/config.json`, builds the trip form data and a user-agent
string, applies the cooldown gate, parses the output of the `airport -I`
probe, fetches the keychain password, performs the HTTP exchange, classifies
the response body, and possibly rewrites the configuration file.

Modelling conventions:
  * timestamps (`datetime.now()`, `last_success`) are integers (epoch seconds);
  * the external world (weekday, CLI flag, probe stdout, keychain password,
    the `useragent.json` file, the random draws, and the text nodes returned
    by the two xpath queries on the response DOM) is a `RunInput` record;
  * a Python exception that the script does not catch (KeyError, IndexError,
    a missing or malformed `useragent.json`) is `Except.error`;
  * the configuration file after the run is `RunResult.fileAfter`, together
    with `RunResult.wrote` recording whether the file was rewritten at all.
-/

deriving instance DecidableEq for Except

namespace IncentiveLogger

/-- Helper for `pySplit`: walk the character list, cutting at the
separator; the accumulator holds the current piece reversed. -/
def splitCharAux (sep : Char) : List Char → List Char → List (List Char)
  | [], acc => [acc.reverse]
  | c :: cs, acc =>
    if c = sep then acc.reverse :: splitCharAux sep cs []
    else splitCharAux sep cs (c :: acc)

/-- Python `str.split` with a one character separator: splitting the empty
string gives `[""]`, and n separators give n+1 pieces. -/
def pySplit (s : String) (sep : Char) : List String :=
  (splitCharAux sep s.data []).map String.mk

/-- Python `str.strip` with no argument: drop whitespace from both ends. -/
def pyStrip (s : String) : String :=
  String.mk (((s.data.dropWhile Char.isWhitespace).reverse.dropWhile Char.isWhitespace).reverse)

/-- Outcome of one run, one constructor per terminal `exit()` site of the
script (weekend check, delay branch, no-connection branch, invalid-network
branch, missing-password branch, and the two classification results). -/
inductive Outcome where
  | notAWeekday
  | delayed
  | noConnection
  | invalidNetwork
  | noCredential
  | rejected
  | succeeded
  deriving DecidableEq, Repr

/-- Uncaught Python exception kinds the script can die with before any
terminal `exit()` is reached. -/
inductive PyError where
  | keyError
  | indexError
  | fileLoadError
  deriving DecidableEq, Repr

/-- Configuration object loaded from `config/config.json` (main.py lines
155-181).  `lastSuccess` holds the raw `last_success` value. -/
structure Config where
  username : String
  passwordDomain : String
  override : Bool
  hoursDelay : Int
  airportPath : String
  validSSIDs : List String
  url : String
  protocol : String
  logFilepath : String
  logLevel : String
  destinations : List String
  othermodes : List String
  defaultUseragent : String
  randomizeUseragent : Bool
  lastSuccess : Int
  deriving DecidableEq, Repr

/-- Contents of `config/useragent.json` (main.py lines 200-204): a list of
elements and, per element, verb and noun pools (the two JSON dicts are
association lists here). -/
structure UAData where
  elements : List String
  verbs : List (String × List String)
  nouns : List (String × List String)
  deriving DecidableEq, Repr

/-- Everything one invocation reads from the outside world. -/
structure RunInput where
  weekday : Nat
  cliOverride : Bool
  config : Config
  now : Int
  airportStdout : String
  password : String
  useragentFile : Option UAData
  pickElement : Nat
  pickVerb : Nat
  pickNoun : Nat
  randMajor : Nat
  randMinor : Nat
  notificationRaw : List String
  successRaw : List String
  deriving DecidableEq, Repr

/-- Result of a run that reached one of the terminal `exit()` calls. -/
structure RunResult where
  outcome : Outcome
  exitCode : Nat
  fileAfter : Config
  wrote : Bool
  deriving DecidableEq, Repr

/-- Line 161: `override = override if override else config["override"]` -
the effective override is the CLI flag or, failing that, the config flag. -/
def effOverride (cliOverride : Bool) (c : Config) : Bool :=
  cliOverride || c.override

/-- Line 163: `delay = 60 * 60 * config["hours_delay"]`. -/
def delaySeconds (c : Config) : Int :=
  60 * 60 * c.hoursDelay

/-- Line 181: `lastSuccess = config["last_success"] if
int(config["last_success"]) > 0 else None`. -/
def lastSuccessOf (c : Config) : Option Int :=
  if 0 < c.lastSuccess then some c.lastSuccess else none

/-- Line 229 condition: `override or lastSuccess is None or
(currentDatetime - fromtimestamp(lastSuccess)) >= timedelta(seconds = delay)`. -/
def gatePasses (ov : Bool) (c : Config) (now : Int) : Bool :=
  ov ||
    match lastSuccessOf c with
    | none => true
    | some t => decide (delaySeconds c ≤ now - t)

/-- Lines 191-195: the POST data.  `trip-log` and `mileage` are literals in
the script; destination and othermode are element 0 of the configured lists,
and `destinations[0]` / `othermodes[0]` raise IndexError on an empty list.
Values are the strings that `urlencode` would send. -/
def tripDetails (c : Config) : Except PyError (List (String × String)) :=
  match c.destinations.head? with
  | none => .error .indexError
  | some d =>
    match c.othermodes.head? with
    | none => .error .indexError
    | some m =>
      .ok [("trip-log", "1"), ("mileage", "6.5"), ("destination", d), ("othermode", m)]

/-- Model of `Random.choice`: some element of the list, chosen by an input
index; IndexError on an empty list. -/
def pyChoice (l : List String) (pick : Nat) : Except PyError String :=
  match l.get? (pick % l.length) with
  | none => .error .indexError
  | some x => .ok x

/-- Lines 198-208: the user-agent string.  When `randomize_useragent` is set
the script opens `config/useragent.json` (a missing or malformed file is an
uncaught exception), draws an element, then a verb and a noun keyed by that
element (KeyError when the dicts lack the key), and appends two random
numbers; otherwise it uses `default_useragent`. -/
def buildUserAgent (c : Config) (uaFile : Option UAData)
    (pickElement pickVerb pickNoun randMajor randMinor : Nat) :
    Except PyError String :=
  if c.randomizeUseragent then
    match uaFile with
    | none => .error .fileLoadError
    | some ua => do
      let el ← pyChoice ua.elements pickElement
      match ua.verbs.lookup el with
      | none => .error .keyError
      | some vs => do
        let v ← pyChoice vs pickVerb
        match ua.nouns.lookup el with
        | none => .error .keyError
        | some ns => do
          let n ← pyChoice ns pickNoun
          .ok (v ++ "-" ++ n ++ "_" ++ toString (randMajor % 4) ++ "."
                ++ toString (1 + randMinor % 17))
  else
    .ok c.defaultUseragent

/-- Line 238, per line of the probe stdout: a line containing a colon
contributes the pair `(line.split(":")[0].strip(), line.split(":")[1].strip())`. -/
def parseNetworkLines (stdout : String) : List (String × String) :=
  ((pySplit stdout '\n').filter (fun l => l.data.contains ':')).map
    (fun l => (pyStrip ((pySplit l ':').headD ""), pyStrip ((pySplit l ':').getD 1 "")))

/-- Python dict insertion: overwrite the value of an existing key in place,
otherwise append the new pair. -/
def dictInsert (d : List (String × String)) (kv : String × String) :
    List (String × String) :=
  if d.any (fun p => p.1 = kv.1) then
    d.map (fun p => if p.1 = kv.1 then (p.1, kv.2) else p)
  else
    d ++ [kv]

/-- Line 238: the dict comprehension over the probe stdout; `len(network)`
is the length of this list and `network["SSID"]` is `List.lookup "SSID"`. -/
def parseNetwork (stdout : String) : List (String × String) :=
  (parseNetworkLines stdout).foldl dictInsert []

/-- Lines 287 and 293: `[Rgx.sub(r"[\:\-]", "", string).strip() for string in
xs if len(string.strip()) > 0]` - keep the strings that are nonblank after
stripping surrounding whitespace, then delete every colon and hyphen and trim. -/
def stripPunct (s : String) : String :=
  String.mk (s.data.filter (fun ch => ch ≠ ':' ∧ ch ≠ '-'))

def cleanDetails (xs : List String) : List String :=
  (xs.filter (fun s => 0 < (pyStrip s).length)).map (fun s => pyStrip (stripPunct s))

/-- Lines 297-315: response classification and the configuration rewrite.
With at least one extracted success string the script writes `last_success`
and resets `override`; otherwise it only resets `override`.  Both branches
rewrite the file; both exit with status 0. -/
def classifyAndWrite (i : RunInput) : RunResult :=
  if 0 < (cleanDetails i.successRaw).length then
    { outcome := .succeeded
      exitCode := 0
      fileAfter := { i.config with lastSuccess := i.now, override := false }
      wrote := true }
  else
    { outcome := .rejected
      exitCode := 0
      fileAfter := { i.config with override := false }
      wrote := true }

/-- Lines 236-330: the network, credential, submission and classification
phase, entered once the gate has passed.  Line 241 evaluates
`network["SSID"]` whenever `len(network) > 1`, so a missing SSID key is a
KeyError there even with the override set; line 320 evaluates
`network["SSID"]` whenever `len(network) != 1`, so an empty dict is a
KeyError there too. -/
def networkPhase (i : RunInput) (ov : Bool) : Except PyError RunResult :=
  if 1 < (parseNetwork i.airportStdout).length then
    match (parseNetwork i.airportStdout).lookup "SSID" with
    | none => .error .keyError
    | some ssid =>
      if ssid ∈ i.config.validSSIDs || ov then
        if i.password.length < 1 then
          .ok { outcome := .noCredential, exitCode := 0, fileAfter := i.config, wrote := false }
        else
          .ok (classifyAndWrite i)
      else
        if ssid.length = 0 then
          .ok { outcome := .noConnection, exitCode := 0, fileAfter := i.config, wrote := false }
        else
          .ok { outcome := .invalidNetwork, exitCode := 0, fileAfter := i.config, wrote := false }
  else
    if (parseNetwork i.airportStdout).length = 1 then
      .ok { outcome := .noConnection, exitCode := 0, fileAfter := i.config, wrote := false }
    else
      .error .keyError

/-- Lines 135-339: one full invocation.  The weekend check precedes
everything, then the trip details and the user-agent string are built before
the gate, and the delay branch (lines 332-339) ends the run with no write. -/
def run (i : RunInput) : Except PyError RunResult :=
  if 4 < i.weekday then
    .ok { outcome := .notAWeekday, exitCode := 0, fileAfter := i.config, wrote := false }
  else
    match tripDetails i.config with
    | .error e => .error e
    | .ok _ =>
      match buildUserAgent i.config i.useragentFile i.pickElement i.pickVerb
          i.pickNoun i.randMajor i.randMinor with
      | .error e => .error e
      | .ok _ =>
        if gatePasses (effOverride i.cliOverride i.config) i.config i.now then
          networkPhase i (effOverride i.cliOverride i.config)
        else
          .ok { outcome := .delayed, exitCode := 0, fileAfter := i.config, wrote := false }

/-- Configuration fields other than `last_success` and `override`; the spec
calls these the fields a write must leave as loaded. -/
def agreesOnImmutable (c cAfter : Config) : Prop :=
  cAfter.username = c.username ∧ cAfter.passwordDomain = c.passwordDomain ∧
  cAfter.hoursDelay = c.hoursDelay ∧ cAfter.airportPath = c.airportPath ∧
  cAfter.validSSIDs = c.validSSIDs ∧ cAfter.url = c.url ∧
  cAfter.protocol = c.protocol ∧ cAfter.logFilepath = c.logFilepath ∧
  cAfter.logLevel = c.logLevel ∧ cAfter.destinations = c.destinations ∧
  cAfter.othermodes = c.othermodes ∧ cAfter.defaultUseragent = c.defaultUseragent ∧
  cAfter.randomizeUseragent = c.randomizeUseragent

/-- String values occurring anywhere in a loaded configuration; used to show
that a form value is not taken from the configuration. -/
def configStrings (c : Config) : List String :=
  [c.username, c.passwordDomain, c.airportPath, c.url, c.protocol,
   c.logFilepath, c.logLevel, c.defaultUseragent]
    ++ c.validSSIDs ++ c.destinations ++ c.othermodes

/-- Per-run input minus the configuration, used to thread the configuration
file through a sequence of scheduled invocations. -/
structure StepInput where
  weekday : Nat
  cliOverride : Bool
  now : Int
  airportStdout : String
  password : String
  useragentFile : Option UAData
  pickElement : Nat
  pickVerb : Nat
  pickNoun : Nat
  randMajor : Nat
  randMinor : Nat
  notificationRaw : List String
  successRaw : List String
  deriving DecidableEq, Repr

def StepInput.toRunInput (s : StepInput) (c : Config) : RunInput :=
  { weekday := s.weekday, cliOverride := s.cliOverride, config := c, now := s.now,
    airportStdout := s.airportStdout, password := s.password,
    useragentFile := s.useragentFile, pickElement := s.pickElement,
    pickVerb := s.pickVerb, pickNoun := s.pickNoun, randMajor := s.randMajor,
    randMinor := s.randMinor, notificationRaw := s.notificationRaw,
    successRaw := s.successRaw }

/-- Configuration file left behind by one invocation: the rewritten file on
a completed run, the untouched file when the run died on an uncaught
exception (the script only writes on the two classification branches). -/
def stepFile (c : Config) (s : StepInput) : Config :=
  match run (s.toRunInput c) with
  | .ok r => r.fileAfter
  | .error _ => c

/-- Configuration file after a sequence of scheduled invocations. -/
def chainFile (c : Config) (ss : List StepInput) : Config :=
  ss.foldl stepFile c

/-- Clock sanity across a sequence of runs: each invocation happens no
earlier than the timestamp stored in the file it reads. -/
def nowsRespectStored (c : Config) : List StepInput → Bool
  | [] => true
  | s :: ss => (decide (c.lastSuccess ≤ s.now)) && nowsRespectStored (stepFile c s) ss

/-- Concrete configuration used by the witnesses below. -/
def cfgW : Config :=
  { username := "u", passwordDomain := "d", override := false, hoursDelay := 1,
    airportPath := "a", validSSIDs := ["N"], url := "x", protocol := "https",
    logFilepath := "l", logLevel := "INFO", destinations := ["D"],
    othermodes := ["M"], defaultUseragent := "UA", randomizeUseragent := false,
    lastSuccess := 10 }

/-- Concrete run on a Monday, on the allow-listed network, past the
cooldown, with a success response. -/
def iSuccess : RunInput :=
  { weekday := 0, cliOverride := false, config := cfgW, now := 100000,
    airportStdout := "SSID: N\nCH: 1", password := "p", useragentFile := none,
    pickElement := 0, pickVerb := 0, pickNoun := 0, randMajor := 0, randMinor := 0,
    notificationRaw := [], successRaw := ["ok"] }

def rSuccess : RunResult :=
  { outcome := .succeeded, exitCode := 0,
    fileAfter := { cfgW with lastSuccess := 100000, override := false },
    wrote := true }

/-- Same run but only 90 seconds after the stored success, inside the one
hour cooldown, so the gate fails. -/
def iDelayed : RunInput := { iSuccess with now := 100 }

def rDelayed : RunResult :=
  { outcome := .delayed, exitCode := 0, fileAfter := cfgW, wrote := false }

/-- Weekend run with the override set and an unusable configuration, to
exercise the unconditional weekend exit. -/
def iWeekend : RunInput :=
  { iSuccess with
    weekday := 6
    cliOverride := true
    config := { cfgW with destinations := [] } }

/-- Gate passed by override, but the probe printed nothing: zero parsed
fields. -/
def iZeroFields : RunInput :=
  { iSuccess with
    cliOverride := true
    airportStdout := ""
    config := { cfgW with validSSIDs := [] } }

/-- Gate passed by override, probe reported a single field (the airport
utility with the interface off). -/
def iOneField : RunInput :=
  { iSuccess with
    cliOverride := true
    airportStdout := "AirPort: Off"
    config := { cfgW with validSSIDs := [] } }

/-- Run that would be delayed by the gate but reads a configuration with an
empty destinations list. -/
def iBadLists : RunInput :=
  { iDelayed with config := { cfgW with destinations := [] } }

/-- Success response body carrying the markup of the round-trip test. -/
def iTripLogged : RunInput :=
  { iSuccess with successRaw := ["Trip logged: OK"] }

/-- Step inputs for a two-run sequence: a successful run followed by a
delayed one. -/
def stepSuccess : StepInput :=
  { weekday := 0, cliOverride := false, now := 100000,
    airportStdout := "SSID: N\nCH: 1", password := "p", useragentFile := none,
    pickElement := 0, pickVerb := 0, pickNoun := 0, randMajor := 0, randMinor := 0,
    notificationRaw := [], successRaw := ["ok"] }

def stepLate : StepInput := { stepSuccess with now := 100500 }

def ssW : List StepInput := [stepSuccess, stepLate]

/-- Concrete configuration for the trip-details counterexample: no string
value anywhere in it equals the submitted marker or mileage. -/
def cfgTrip : Config :=
  { username := "alice", passwordDomain := "portal", override := false,
    hoursDelay := 14, airportPath := "ap", validSSIDs := ["Net"],
    url := "example.org", protocol := "https", logFilepath := "log",
    logLevel := "INFO", destinations := ["Downtown"], othermodes := ["Bus"],
    defaultUseragent := "Agent", randomizeUseragent := false, lastSuccess := 0 }

/-- Shared case analysis of every completed run: exit status, which results
rewrite the file, and the exact file contents each branch writes. -/
theorem run_ok_spec (i : RunInput) (r : RunResult) (h : run i = Except.ok r) :
    r.exitCode = 0 ∧
    (r.wrote = true ↔ (r.outcome = Outcome.succeeded ∨ r.outcome = Outcome.rejected)) ∧
    (r.wrote = false → r.fileAfter = i.config) ∧
    (r.outcome = Outcome.succeeded →
      r.fileAfter = { i.config with lastSuccess := i.now, override := false }) ∧
    (r.outcome = Outcome.rejected → r.fileAfter = { i.config with override := false }) := by
  unfold run at h
  split at h
  · injection h with h; subst h; simp
  · cases htd : tripDetails i.config with
    | error e => simp only [htd] at h; exact Except.noConfusion h
    | ok td =>
      simp only [htd] at h
      cases hua : buildUserAgent i.config i.useragentFile i.pickElement i.pickVerb
          i.pickNoun i.randMajor i.randMinor with
      | error e => simp only [hua] at h; exact Except.noConfusion h
      | ok ua =>
        simp only [hua] at h
        split at h
        · unfold networkPhase at h
          split at h
          · cases hss : List.lookup "SSID" (parseNetwork i.airportStdout) with
            | none => simp only [hss] at h; exact Except.noConfusion h
            | some ssid =>
              simp only [hss] at h
              split at h
              · split at h
                · injection h with h; subst h; simp
                · injection h with h
                  unfold classifyAndWrite at h
                  split at h <;> (subst h; simp)
              · split at h <;> (injection h with h; subst h; simp)
          · split at h
            · injection h with h; subst h; simp
            · exact Except.noConfusion h
        · injection h with h; subst h; simp

/-- Shared fact: the phase after the gate never produces the delayed result. -/
theorem networkPhase_not_delayed (i : RunInput) (ov : Bool) (r : RunResult)
    (h : networkPhase i ov = Except.ok r) : r.outcome ≠ Outcome.delayed := by
  unfold networkPhase at h
  split at h
  · cases hss : List.lookup "SSID" (parseNetwork i.airportStdout) with
    | none => simp only [hss] at h; exact Except.noConfusion h
    | some ssid =>
      simp only [hss] at h
      split at h
      · split at h
        · injection h with h; subst h; simp
        · injection h with h
          unfold classifyAndWrite at h
          split at h <;> (subst h; simp)
      · split at h <;> (injection h with h; subst h; simp)
  · split at h
    · injection h with h; subst h; simp
    · exact Except.noConfusion h

/-- Shared characterisation of a failing gate, read off line 229. -/
theorem gatePasses_eq_false_iff (ov : Bool) (c : Config) (now : Int) :
    gatePasses ov c now = false ↔
      (ov = false ∧ ∃ t, lastSuccessOf c = some t ∧ now - t < delaySeconds c) := by
  unfold gatePasses
  cases ov with
  | true => simp
  | false =>
    cases h : lastSuccessOf c with
    | none => simp [h]
    | some t => simp [h]

theorem stepFile_eq_of_ok (c : Config) (s : StepInput) (r : RunResult)
    (h : run (s.toRunInput c) = Except.ok r) : stepFile c s = r.fileAfter := by
  unfold stepFile
  rw [h]

theorem stepFile_eq_of_error (c : Config) (s : StepInput) (e : PyError)
    (h : run (s.toRunInput c) = Except.error e) : stepFile c s = c := by
  unfold stepFile
  rw [h]

/-- Shared fact: one invocation either leaves the stored timestamp alone or,
exactly when its outcome is the success one, replaces it by the current
time of that run. -/
theorem stepFile_lastSuccess (c : Config) (s : StepInput) :
    (stepFile c s).lastSuccess = c.lastSuccess ∨
      ((∃ r, run (s.toRunInput c) = Except.ok r ∧ r.outcome = Outcome.succeeded) ∧
        (stepFile c s).lastSuccess = s.now) := by
  cases hr : run (s.toRunInput c) with
  | error e => left; rw [stepFile_eq_of_error c s e hr]
  | ok r =>
    obtain ⟨-, hiff, hnw, hsucc, hrej⟩ := run_ok_spec _ _ hr
    by_cases ho : r.outcome = Outcome.succeeded
    · right
      refine ⟨⟨r, rfl, ho⟩, ?_⟩
      rw [stepFile_eq_of_ok c s r hr, hsucc ho]
      rfl
    · left
      rw [stepFile_eq_of_ok c s r hr]
      by_cases ho2 : r.outcome = Outcome.rejected
      · rw [hrej ho2]
        rfl
      · have hw : r.wrote = false := by
          cases hwv : r.wrote
          · rfl
          · exact absurd (hiff.mp hwv) (by simp [ho, ho2])
        rw [hnw hw]
        rfl

/-- Shared fact: threading the file through a sequence of runs never
decreases the stored timestamp, as long as each run happens no earlier than
the timestamp stored when it starts. -/
theorem chainFile_mono (c : Config) (ss : List StepInput)
    (h : nowsRespectStored c ss = true) :
    c.lastSuccess ≤ (chainFile c ss).lastSuccess := by
  induction ss generalizing c with
  | nil => exact le_refl _
  | cons s ss ih =>
    rw [nowsRespectStored, Bool.and_eq_true] at h
    have h1 : c.lastSuccess ≤ s.now := of_decide_eq_true h.1
    have hstep : c.lastSuccess ≤ (stepFile c s).lastSuccess := by
      rcases stepFile_lastSuccess c s with he | ⟨-, he⟩
      · rw [he]
      · rw [he]; exact h1
    have hch : chainFile c (s :: ss) = chainFile (stepFile c s) ss := rfl
    rw [hch]
    exact le_trans hstep (ih (stepFile c s) h.2)

/-- Claim C1: the success and rejected outcomes are the only ones that
rewrite the configuration file and the only ones that reset the override
flag to false; every other completed outcome leaves the file exactly as
loaded, and a write changes at most the last_success and override fields,
leaving every other configuration field as loaded (rejected keeps
last_success; success sets it to the current time). -/
theorem write_frame_only_on_attempt (i : RunInput) (r : RunResult)
    (h : run i = Except.ok r) :
    (r.wrote = true ↔ (r.outcome = Outcome.succeeded ∨ r.outcome = Outcome.rejected)) ∧
    (r.wrote = false → r.fileAfter = i.config) ∧
    (r.wrote = true → r.fileAfter.override = false ∧ agreesOnImmutable i.config r.fileAfter) ∧
    (r.outcome = Outcome.rejected → r.fileAfter.lastSuccess = i.config.lastSuccess) ∧
    (r.outcome = Outcome.succeeded → r.fileAfter.lastSuccess = i.now) := by
  obtain ⟨-, hiff, hnw, hsucc, hrej⟩ := run_ok_spec i r h
  refine ⟨hiff, hnw, ?_, ?_, ?_⟩
  · intro hwr
    rcases hiff.mp hwr with ho | ho
    · rw [hsucc ho]
      exact ⟨rfl, by simp [agreesOnImmutable]⟩
    · rw [hrej ho]
      exact ⟨rfl, by simp [agreesOnImmutable]⟩
  · intro ho
    rw [hrej ho]
  · intro ho
    rw [hsucc ho]

theorem write_frame_only_on_attempt_witness :
    run iSuccess = Except.ok rSuccess ∧
    ((rSuccess.wrote = true ↔
        (rSuccess.outcome = Outcome.succeeded ∨ rSuccess.outcome = Outcome.rejected)) ∧
      (rSuccess.wrote = false → rSuccess.fileAfter = iSuccess.config) ∧
      (rSuccess.wrote = true →
        rSuccess.fileAfter.override = false ∧ agreesOnImmutable iSuccess.config rSuccess.fileAfter) ∧
      (rSuccess.outcome = Outcome.rejected →
        rSuccess.fileAfter.lastSuccess = iSuccess.config.lastSuccess) ∧
      (rSuccess.outcome = Outcome.succeeded → rSuccess.fileAfter.lastSuccess = iSuccess.now)) :=
  ⟨rfl, write_frame_only_on_attempt iSuccess rSuccess rfl⟩

/-- Claim C3: on a Saturday or Sunday (weekday index above 4) the run exits
at the not-a-weekday outcome with exit status 0 and the configuration file
untouched, whatever every other input is - the statement quantifies over
all probe output, credentials, response bodies and configuration contents,
override included. -/
theorem weekend_unconditional_exit (i : RunInput) (h : 4 < i.weekday) :
    run i = Except.ok
      { outcome := Outcome.notAWeekday, exitCode := 0, fileAfter := i.config, wrote := false } := by
  unfold run
  rw [if_pos h]

theorem weekend_unconditional_exit_witness :
    4 < iWeekend.weekday ∧
    run iWeekend = Except.ok
      { outcome := Outcome.notAWeekday, exitCode := 0,
        fileAfter := iWeekend.config, wrote := false } :=
  ⟨by decide, weekend_unconditional_exit iWeekend (by decide)⟩

/-- Claim C9: every run that ends at one of the terminal outcomes exits the
process with status 0 - each terminal branch of the script calls a bare
zero-status exit. -/
theorem exit_status_zero (i : RunInput) (r : RunResult) (h : run i = Except.ok r) :
    r.exitCode = 0 :=
  (run_ok_spec i r h).1

theorem exit_status_zero_witness :
    run iDelayed = Except.ok rDelayed ∧ rDelayed.exitCode = 0 :=
  ⟨rfl, exit_status_zero iDelayed rDelayed rfl⟩

/-- Claim C2: on a weekday (once the trip fields and the user-agent string
have been built, which the script does before the gate), the run ends in the
delayed result - with no configuration write and the override flag left
alone - exactly when the effective override is off, a positive stored
timestamp exists, and the time since it is below the cooldown; in every
other case the gate proceeds past S1. -/
theorem gate_delayed_iff (i : RunInput) (hw : i.weekday ≤ 4)
    (htd : ∃ td, tripDetails i.config = Except.ok td)
    (hua : ∃ ua, buildUserAgent i.config i.useragentFile i.pickElement i.pickVerb
        i.pickNoun i.randMajor i.randMinor = Except.ok ua) :
    (run i = Except.ok
        { outcome := Outcome.delayed, exitCode := 0, fileAfter := i.config, wrote := false }) ↔
      (effOverride i.cliOverride i.config = false ∧
        ∃ t, lastSuccessOf i.config = some t ∧ i.now - t < delaySeconds i.config) := by
  obtain ⟨td, htd⟩ := htd
  obtain ⟨ua, hua⟩ := hua
  have hw2 : ¬ 4 < i.weekday := by omega
  rw [← gatePasses_eq_false_iff (effOverride i.cliOverride i.config) i.config i.now]
  unfold run
  rw [if_neg hw2]
  simp only [htd, hua]
  cases hg : gatePasses (effOverride i.cliOverride i.config) i.config i.now with
  | false => simp
  | true =>
    rw [if_pos rfl]
    constructor
    · intro hrun
      exact absurd rfl (networkPhase_not_delayed i _ _ hrun)
    · intro hff
      exact Bool.noConfusion hff

theorem gate_delayed_iff_witness :
    iDelayed.weekday ≤ 4 ∧
    (∃ td, tripDetails iDelayed.config = Except.ok td) ∧
    (∃ ua, buildUserAgent iDelayed.config iDelayed.useragentFile iDelayed.pickElement
        iDelayed.pickVerb iDelayed.pickNoun iDelayed.randMajor iDelayed.randMinor =
          Except.ok ua) ∧
    ((run iDelayed = Except.ok
        { outcome := Outcome.delayed, exitCode := 0, fileAfter := iDelayed.config,
          wrote := false }) ↔
      (effOverride iDelayed.cliOverride iDelayed.config = false ∧
        ∃ t, lastSuccessOf iDelayed.config = some t ∧
          iDelayed.now - t < delaySeconds iDelayed.config)) :=
  ⟨by decide, ⟨_, rfl⟩, ⟨_, rfl⟩, gate_delayed_iff iDelayed (by decide) ⟨_, rfl⟩ ⟨_, rfl⟩⟩

/-- Claim C4, counterexample: with the override on, an empty allow-list,
and a probe output whose parsed form has zero key/value fields - fewer than
two - the run does not end in the no-connection outcome (or any outcome):
line 320 evaluates the SSID entry of the empty dict and the script dies on
an uncaught KeyError. -/
theorem zero_fields_keyerror :
    (parseNetwork iZeroFields.airportStdout).length = 0 ∧
    iZeroFields.config.validSSIDs = [] ∧
    effOverride iZeroFields.cliOverride iZeroFields.config = true ∧
    run iZeroFields = Except.error PyError.keyError := by
  exact ⟨rfl, rfl, rfl, rfl⟩

/-- Claim C4 as amended: past the gate, a parsed probe output with exactly
one key/value field yields the no-connection outcome with no write and no
override reset, regardless of the allow-list and the override; with zero
fields the run instead dies on an uncaught KeyError before any outcome. -/
theorem few_fields_no_connection (i : RunInput) (hw : i.weekday ≤ 4)
    (htd : ∃ td, tripDetails i.config = Except.ok td)
    (hua : ∃ ua, buildUserAgent i.config i.useragentFile i.pickElement i.pickVerb
        i.pickNoun i.randMajor i.randMinor = Except.ok ua)
    (hg : gatePasses (effOverride i.cliOverride i.config) i.config i.now = true) :
    ((parseNetwork i.airportStdout).length = 1 →
      run i = Except.ok
        { outcome := Outcome.noConnection, exitCode := 0, fileAfter := i.config,
          wrote := false }) ∧
    ((parseNetwork i.airportStdout).length = 0 →
      run i = Except.error PyError.keyError) := by
  obtain ⟨td, htd⟩ := htd
  obtain ⟨ua, hua⟩ := hua
  have hw2 : ¬ 4 < i.weekday := by omega
  constructor <;> intro hl <;>
    (unfold run networkPhase
     rw [if_neg hw2]
     simp only [htd, hua]
     rw [if_pos hg, hl]
     simp)

theorem few_fields_no_connection_witness :
    iOneField.weekday ≤ 4 ∧
    (∃ td, tripDetails iOneField.config = Except.ok td) ∧
    (∃ ua, buildUserAgent iOneField.config iOneField.useragentFile iOneField.pickElement
        iOneField.pickVerb iOneField.pickNoun iOneField.randMajor iOneField.randMinor =
          Except.ok ua) ∧
    gatePasses (effOverride iOneField.cliOverride iOneField.config) iOneField.config
      iOneField.now = true ∧
    (parseNetwork iOneField.airportStdout).length = 1 ∧
    run iOneField = Except.ok
      { outcome := Outcome.noConnection, exitCode := 0, fileAfter := iOneField.config,
        wrote := false } :=
  ⟨by decide, ⟨_, rfl⟩, ⟨_, rfl⟩, by decide, by decide,
    (few_fields_no_connection iOneField (by decide) ⟨_, rfl⟩ ⟨_, rfl⟩ (by decide)).1
      (by decide)⟩

/-- Claim C5: across a sequence of runs that thread the configuration file,
the stored timestamp never decreases - each run either leaves it unchanged
or, exactly on the success outcome, overwrites it with the current time
of that run - under the hypothesis that every run starts no earlier than the
timestamp stored in the file it reads. -/
theorem lastSuccess_monotone (c : Config) (ss : List StepInput)
    (h : nowsRespectStored c ss = true) :
    c.lastSuccess ≤ (chainFile c ss).lastSuccess ∧
    ∀ (d : Config) (s : StepInput),
      (stepFile d s).lastSuccess = d.lastSuccess ∨
        ((∃ r, run (s.toRunInput d) = Except.ok r ∧ r.outcome = Outcome.succeeded) ∧
          (stepFile d s).lastSuccess = s.now) :=
  ⟨chainFile_mono c ss h, fun d s => stepFile_lastSuccess d s⟩

theorem lastSuccess_monotone_witness :
    nowsRespectStored cfgW ssW = true ∧
    (cfgW.lastSuccess ≤ (chainFile cfgW ssW).lastSuccess ∧
      ∀ (d : Config) (s : StepInput),
        (stepFile d s).lastSuccess = d.lastSuccess ∨
          ((∃ r, run (s.toRunInput d) = Except.ok r ∧ r.outcome = Outcome.succeeded) ∧
            (stepFile d s).lastSuccess = s.now)) :=
  ⟨by decide, lastSuccess_monotone cfgW ssW (by decide)⟩

/-- Claim C7: a response body containing the markup span with text
"Trip logged: OK" is, at the embedding boundary, a body whose extracted
success-classed text nodes include that node; the cleanup (line 293)
always turns such a node into "Trip logged OK" - colon and hyphen
deleted, whitespace trimmed - wherever it sits among further nodes, and
when it is the only success node the cleaned list is exactly the one
element list with "Trip logged OK" and the run that reaches
classification ends in the success outcome with the corresponding write
(an empty or blank node would be discarded by the cleanup; this one is
not blank and survives). -/
theorem classifier_success_roundtrip (i : RunInput) (hw : i.weekday ≤ 4)
    (htd : ∃ td, tripDetails i.config = Except.ok td)
    (hua : ∃ ua, buildUserAgent i.config i.useragentFile i.pickElement i.pickVerb
        i.pickNoun i.randMajor i.randMinor = Except.ok ua)
    (hg : gatePasses (effOverride i.cliOverride i.config) i.config i.now = true)
    (hlen : 1 < (parseNetwork i.airportStdout).length)
    (hssid : ∃ ssid, List.lookup "SSID" (parseNetwork i.airportStdout) = some ssid ∧
      (decide (ssid ∈ i.config.validSSIDs) || effOverride i.cliOverride i.config) = true)
    (hpw : ¬ i.password.length < 1)
    (hbody : i.successRaw = ["Trip logged: OK"]) :
    cleanDetails i.successRaw = ["Trip logged OK"] ∧
    (∀ rest : List String,
      cleanDetails ("Trip logged: OK" :: rest) = "Trip logged OK" :: cleanDetails rest) ∧
    run i = Except.ok
      { outcome := Outcome.succeeded, exitCode := 0,
        fileAfter := { i.config with lastSuccess := i.now, override := false },
        wrote := true } := by
  obtain ⟨td, htd⟩ := htd
  obtain ⟨ua, hua⟩ := hua
  obtain ⟨ssid, hss, hcond⟩ := hssid
  have hw2 : ¬ 4 < i.weekday := by omega
  have hclean : cleanDetails ["Trip logged: OK"] = ["Trip logged OK"] := by decide
  refine ⟨by rw [hbody]; exact hclean, fun rest => rfl, ?_⟩
  unfold run networkPhase
  rw [if_neg hw2]
  simp only [htd, hua]
  rw [if_pos hg, if_pos hlen]
  simp only [hss]
  rw [if_pos hcond, if_neg hpw]
  unfold classifyAndWrite
  rw [hbody, hclean]
  rfl

theorem classifier_success_roundtrip_witness :
    iTripLogged.weekday ≤ 4 ∧
    (∃ td, tripDetails iTripLogged.config = Except.ok td) ∧
    (∃ ua, buildUserAgent iTripLogged.config iTripLogged.useragentFile
        iTripLogged.pickElement iTripLogged.pickVerb iTripLogged.pickNoun
        iTripLogged.randMajor iTripLogged.randMinor = Except.ok ua) ∧
    gatePasses (effOverride iTripLogged.cliOverride iTripLogged.config)
      iTripLogged.config iTripLogged.now = true ∧
    1 < (parseNetwork iTripLogged.airportStdout).length ∧
    (∃ ssid, List.lookup "SSID" (parseNetwork iTripLogged.airportStdout) = some ssid ∧
      (decide (ssid ∈ iTripLogged.config.validSSIDs) ||
        effOverride iTripLogged.cliOverride iTripLogged.config) = true) ∧
    (¬ iTripLogged.password.length < 1) ∧
    iTripLogged.successRaw = ["Trip logged: OK"] ∧
    (cleanDetails iTripLogged.successRaw = ["Trip logged OK"] ∧
      (∀ rest : List String,
        cleanDetails ("Trip logged: OK" :: rest) = "Trip logged OK" :: cleanDetails rest) ∧
      run iTripLogged = Except.ok
        { outcome := Outcome.succeeded, exitCode := 0,
          fileAfter := { iTripLogged.config with
            lastSuccess := iTripLogged.now
            override := false },
          wrote := true }) :=
  ⟨by decide, ⟨_, rfl⟩, ⟨_, rfl⟩, by decide, by decide, ⟨"N", by decide, by decide⟩,
    by decide, rfl,
    classifier_success_roundtrip iTripLogged (by decide) ⟨_, rfl⟩ ⟨_, rfl⟩ (by decide)
      (by decide) ⟨"N", by decide, by decide⟩ (by decide) rfl⟩

/-- Claim C8, counterexample: at a concrete configuration the submitted
marker value 1 and mileage value 6.5 appear nowhere among the configuration
values - they are literals of the script - so the submitted trip-record
fields are not each taken verbatim from the loaded configuration. -/
theorem trip_marker_mileage_not_from_config :
    tripDetails cfgTrip = Except.ok
      [("trip-log", "1"), ("mileage", "6.5"), ("destination", "Downtown"),
        ("othermode", "Bus")] ∧
    "6.5" ∉ configStrings cfgTrip ∧ "1" ∉ configStrings cfgTrip :=
  ⟨rfl, by decide, by decide⟩

/-- Claim C8 as amended: of the four submitted trip-record fields, only
destination and othermode come verbatim from the configuration - the first
element of the configured destinations and othermodes lists, the index 0
being fixed in the script, not configured - while the marker (trip-log = 1)
and the mileage (6.5) are script constants, identical for every
configuration. -/
theorem trip_fields_from_lists (c : Config) (d m : String) (ds ms : List String)
    (hd : c.destinations = d :: ds) (hm : c.othermodes = m :: ms) :
    tripDetails c = Except.ok
      [("trip-log", "1"), ("mileage", "6.5"), ("destination", d), ("othermode", m)] := by
  unfold tripDetails
  rw [hd, hm]
  rfl

theorem trip_fields_from_lists_witness :
    cfgW.destinations = "D" :: [] ∧ cfgW.othermodes = "M" :: [] ∧
    tripDetails cfgW = Except.ok
      [("trip-log", "1"), ("mileage", "6.5"), ("destination", "D"), ("othermode", "M")] :=
  ⟨rfl, rfl, trip_fields_from_lists cfgW "D" "M" [] [] rfl rfl⟩

/-- Claim C10 (implicit): the script builds the trip fields and the
user-agent string before the gate, the network check and the credential
fetch, so a weekday run whose configuration has an empty destinations or
othermodes list - or has randomize_useragent set without a readable
useragent.json file - dies on an uncaught exception before reaching any of
the terminal outcomes, the delayed one included. -/
theorem pre_gate_construction_required (i : RunInput) (hw : i.weekday ≤ 4)
    (hbad : i.config.destinations = [] ∨ i.config.othermodes = [] ∨
      (i.config.randomizeUseragent = true ∧ i.useragentFile = none)) :
    ∃ e, run i = Except.error e := by
  have hw2 : ¬ 4 < i.weekday := by omega
  unfold run
  rw [if_neg hw2]
  rcases hbad with hd | hm | ⟨hr, hf⟩
  · refine ⟨PyError.indexError, ?_⟩
    have htd : tripDetails i.config = Except.error PyError.indexError := by
      unfold tripDetails
      rw [hd]
      rfl
    simp only [htd]
  · refine ⟨PyError.indexError, ?_⟩
    have htd : tripDetails i.config = Except.error PyError.indexError := by
      unfold tripDetails
      cases hds : i.config.destinations with
      | nil => rfl
      | cons a l =>
        rw [hm]
        rfl
    simp only [htd]
  · cases htd : tripDetails i.config with
    | error e =>
      refine ⟨e, ?_⟩
      simp only [htd]
    | ok td =>
      refine ⟨PyError.fileLoadError, ?_⟩
      have hua : buildUserAgent i.config i.useragentFile i.pickElement i.pickVerb
          i.pickNoun i.randMajor i.randMinor = Except.error PyError.fileLoadError := by
        unfold buildUserAgent
        rw [hr, hf]
        rfl
      simp only [htd, hua]

theorem pre_gate_construction_required_witness :
    iBadLists.weekday ≤ 4 ∧
    (iBadLists.config.destinations = [] ∨ iBadLists.config.othermodes = [] ∨
      (iBadLists.config.randomizeUseragent = true ∧ iBadLists.useragentFile = none)) ∧
    effOverride iBadLists.cliOverride iBadLists.config = false ∧
    gatePasses (effOverride iBadLists.cliOverride iBadLists.config) iBadLists.config
      iBadLists.now = false ∧
    (∃ e, run iBadLists = Except.error e) :=
  ⟨by decide, by decide, by decide, by decide,
    pre_gate_construction_required iBadLists (by decide) (by decide)⟩

end IncentiveLogger
